import Mathlib

/-!
# waOdoo: the WhatsApp relay (`internal/whatsapp`) and `ngrok.BuildURL`

A shallow embedding of `internal/whatsapp/service.go`, `handler.go` and `model.go`, and of
`BuildURL` of `internal/ngrok/service.go`.

Conventions of the embedding.

* Go strings and byte slices that hold text are Lean `String`s (valid UTF-8 text).
* A Go `error` is the text its `Error()` method returns; `fmt.Errorf("p: %w", e)`
  is the error whose text is `"p: "` followed by the text of `e`.
* A Go function returning `(*T, error)` returns a `Ret T`: both components may be `nil`.
  A function that can stop on a run-time panic returns an `Outcome`.
* The standard library and the network are collaborators, gathered in a `World`:
  `encoding/json` (`Marshal`, `Unmarshal` at the three types the code decodes into),
  `net/http` (`NewRequest`, `NewRequestWithContext`, `Client.Do`, reading the body).
  Every theorem quantifies over the world.
* HTTP requests the code builds and sends are recorded, in order, as `Effect`s;
  the records `fmt.Printf` receives in `ProcessWebhook` are returned in order.
  `log.Printf` lines are not modelled.
-/

namespace WaOdoo

/-! ## Go values and helpers -/

/-- The text of a Go `error`. -/
structure GoError where
  msg : String
  deriving DecidableEq

/-- `fmt.Errorf(pfx ++ "%w", err)`: the wrapping error's text is the prefix followed by
the wrapped error's text. -/
def Errorf (pfx : String) (err : GoError) : GoError :=
  ⟨pfx ++ err.msg⟩

/-- A Go result pair `(*T, error)`. -/
structure Ret (α : Type) where
  res : Option α
  err : Option GoError

/-- What a call of a Go function that may panic does: it returns its result pair, or it
stops on a run-time panic and returns nothing. -/
inductive Outcome (α : Type) where
  | returned (res : Option α) (err : Option GoError)
  | panicked (reason : String)

/-- A value of Go type `interface{}` as `encoding/json` produces and consumes it. -/
inductive GoValue where
  | null
  | bool (b : Bool)
  | number (lit : String)
  | string (s : String)
  | array (xs : List GoValue)
  | object (kvs : List (String × GoValue))

/-- Indexing a Go map `m[k]`: the value stored under `k`, the nil interface when absent. -/
def mapIndex (m : List (String × GoValue)) (k : String) : GoValue :=
  (m.lookup k).getD GoValue.null

/-- `strings.HasPrefix(s, prefix)`: `len(s) >= len(prefix) && s[:len(prefix)] == prefix`. -/
def HasPrefix (s pre : String) : Bool :=
  decide (s.data.length ≥ pre.data.length) && (s.data.take pre.data.length == pre.data)

/-- `strings.TrimPrefix(s, prefix)`: `s[len(prefix):]` when `s` has the prefix, else `s`. -/
def TrimPrefix (s pre : String) : String :=
  if HasPrefix s pre then ⟨s.data.drop pre.data.length⟩ else s

/-! ## `model.go` -/

/-- `WebhookMessage` of `model.go`; `Media` is a nilable map. -/
structure WebhookMessage where
  SenderID : String
  RecipientID : String
  Timestamp : String
  MessageID : String
  Body : String
  Type_ : String
  Media : Option (List (String × GoValue))

/-- `MessageResponse` of `model.go`. -/
structure MessageResponse where
  Success : Bool
  Message : String
  ID : String
  deriving DecidableEq

/-! ## `service.go`: data -/

structure Service where
  AccessToken : String
  BusinessAccountID : String
  APIVersion : String
  WebhookSecret : String
  deriving DecidableEq

structure OutgoingMessage where
  To : String
  Message : String
  MediaURL : String
  deriving DecidableEq

structure PhoneNumber where
  ID : String
  VerifiedName : String
  DisplayPhoneNumber : String
  QualityRating : String
  deriving DecidableEq

/-- The `Paging.Cursors` member of `PhoneNumbersResponse`. -/
structure Cursors where
  Before : String
  After : String
  deriving DecidableEq

/-- The `Paging` member of `PhoneNumbersResponse`. -/
structure Paging where
  Cursors : Cursors
  Next : String
  deriving DecidableEq

structure PhoneNumbersResponse where
  Data : List PhoneNumber
  Paging : Paging
  deriving DecidableEq

/-- The `text` member of a webhook message. -/
structure WebhookText where
  Body : String
  deriving DecidableEq

/-- One element of `value.messages` in the webhook envelope. -/
structure WebhookRemoteMessage where
  From : String
  ID : String
  Timestamp : String
  Text : WebhookText
  Type_ : String
  deriving DecidableEq

/-- The `metadata` member of a change value. -/
structure WebhookMetadata where
  DisplayPhoneNumber : String
  PhoneNumberID : String
  deriving DecidableEq

/-- The `profile` member of a contact. -/
structure WebhookProfile where
  Name : String
  deriving DecidableEq

/-- One element of `value.contacts`. -/
structure WebhookContact where
  Profile : WebhookProfile
  WaID : String
  deriving DecidableEq

/-- The `value` member of a change. -/
structure WebhookValue where
  MessagingProduct : String
  Metadata : WebhookMetadata
  Contacts : List WebhookContact
  Messages : List WebhookRemoteMessage
  deriving DecidableEq

/-- One element of `entry[].changes`. -/
structure WebhookChange where
  Value : WebhookValue
  Field : String
  deriving DecidableEq

/-- One element of `entry`. -/
structure WebhookEntry where
  ID : String
  Changes : List WebhookChange
  deriving DecidableEq

/-- The anonymous struct `webhookData` that `ProcessWebhook` decodes into. -/
structure WebhookData where
  Object : String
  Entry : List WebhookEntry
  deriving DecidableEq

/-! ## The collaborators -/

/-- A `context.Context`, identified by a token; the world decides what it means. -/
abbrev Context := Nat

/-- An `*http.Request` as the code sets it up. `Query` holds the parameters the code adds to
the URL's query, `Header` the headers it sets, `Ctx` the context it was created with. -/
structure Request where
  Method : String
  URL : String
  Body : Option String
  Query : List (String × String)
  Header : List (String × String)
  Ctx : Option Context
  deriving DecidableEq

/-- An `*http.Response`: its status code and what `io.ReadAll(resp.Body)` gives. -/
structure Response where
  StatusCode : Nat
  Body : Except GoError String

/-- The observable network actions. -/
inductive Effect where
  | built (req : Request)
  | issued (req : Request)
  deriving DecidableEq

/-- The standard library and the network. `NewRequest` and `NewRequestWithContext` give the
error of the constructor (`none` when the request is created). -/
structure World where
  Marshal : GoValue → Except GoError String
  NewRequest : String → String → Option GoError
  NewRequestWithContext : Context → String → String → String → Option GoError
  Do : Request → Except GoError Response
  UnmarshalMap : String → Except GoError (List (String × GoValue))
  UnmarshalPhoneNumbers : String → Except GoError PhoneNumbersResponse
  UnmarshalWebhook : String → Except GoError WebhookData

/-- The body a handler writes: `c.String` writes text, `c.JSON` a value to encode. -/
inductive ReplyBody where
  | text (s : String)
  | json (v : Option MessageResponse)
  deriving DecidableEq

/-- The HTTP response a handler writes. -/
structure Reply where
  status : Nat
  body : ReplyBody
  deriving DecidableEq

/-- What a handler reads from its `echo.Context`: the query parameters, the outcome of
`c.Bind(&msg)`, the outcome of reading the request body, the request's context, and the
error (if any) of writing a given response, which `c.JSON` and `c.String` return. -/
structure EchoContext where
  QueryParam : String → String
  Bind : Except GoError OutgoingMessage
  Body : Except GoError String
  Ctx : Context
  Write : Reply → Option GoError

/-- `http.StatusOK`. -/
def StatusOK : Nat := 200

/-- `http.StatusBadRequest`. -/
def StatusBadRequest : Nat := 400

/-- `http.StatusForbidden`. -/
def StatusForbidden : Nat := 403

/-- `http.StatusInternalServerError`. -/
def StatusInternalServerError : Nat := 500

structure Handler where
  service : Service
  deriving DecidableEq

/-- What a handler call does: it writes a response and returns the error of the write, or
it stops on a panic of the code it calls. -/
inductive HandlerOutcome where
  | replied (reply : Reply) (err : Option GoError)
  | panicked (reason : String)

/-- `c.String(code, s)`. -/
def EchoContext.String (c : EchoContext) (code : Nat) (s : String) : HandlerOutcome :=
  HandlerOutcome.replied ⟨code, ReplyBody.text s⟩ (c.Write ⟨code, ReplyBody.text s⟩)

/-- `c.JSON(code, v)`. -/
def EchoContext.JSON (c : EchoContext) (code : Nat) (v : Option MessageResponse) :
    HandlerOutcome :=
  HandlerOutcome.replied ⟨code, ReplyBody.json v⟩ (c.Write ⟨code, ReplyBody.json v⟩)

/-! ## `service.go`: `ListPhoneNumbers` -/

/-- `fmt.Sprintf("API error (status %d): %s", code, body)`. -/
def apiErrorText (code : Nat) (body : String) : String :=
  "API error (status " ++ toString code ++ "): " ++ body

/-- The `apiURL` of `ListPhoneNumbers`:
`fmt.Sprintf("https://graph.facebook.com/%s/%s/phone_numbers", s.APIVersion, s.BusinessAccountID)`. -/
def lookupURL (s : Service) : String :=
  "https://graph.facebook.com/" ++ s.APIVersion ++ "/" ++ s.BusinessAccountID
    ++ "/phone_numbers"

/-- The request `ListPhoneNumbers` sends: the GET request on `apiURL` without context, with
`access_token` added to its query (service.go 240-248). -/
def lookupRequest (s : Service) : Request :=
  { Method := "GET", URL := lookupURL s, Body := none,
    Query := [("access_token", s.AccessToken)], Header := [], Ctx := none }

/-- `Service.ListPhoneNumbers` (service.go 234-276), with the requests it builds and
sends. -/
def Service.ListPhoneNumbers (w : World) (s : Service) :
    Ret PhoneNumbersResponse × List Effect :=
  let apiURL := lookupURL s
  match w.NewRequest "GET" apiURL with
  | some err => (⟨none, some (Errorf "failed to create request: " err)⟩, [])
  | none =>
    let req0 : Request := ⟨"GET", apiURL, none, [], [], none⟩
    let req := lookupRequest s
    match w.Do req with
    | Except.error err =>
      (⟨none, some (Errorf "failed to send request: " err)⟩,
        [Effect.built req0, Effect.issued req])
    | Except.ok resp =>
      match resp.Body with
      | Except.error err =>
        (⟨none, some (Errorf "failed to read response: " err)⟩,
          [Effect.built req0, Effect.issued req])
      | Except.ok body =>
        if resp.StatusCode ≥ 400 then
          (⟨none, some ⟨apiErrorText resp.StatusCode body⟩⟩,
            [Effect.built req0, Effect.issued req])
        else
          match w.UnmarshalPhoneNumbers body with
          | Except.error err =>
            (⟨none, some (Errorf "failed to parse response: " err)⟩,
              [Effect.built req0, Effect.issued req])
          | Except.ok phoneNumbersResp =>
            (⟨some phoneNumbersResp, none⟩, [Effect.built req0, Effect.issued req])

/-! ## `service.go`: `SendMessage` -/

/-- The `recipient` of `SendMessage`: `strings.TrimPrefix(msg.To, "+")`. -/
def recipient (msg : OutgoingMessage) : String :=
  TrimPrefix msg.To "+"

/-- The `requestBody` map of `SendMessage` (service.go 59-67), the outbound envelope. -/
def requestBody (msg : OutgoingMessage) : GoValue :=
  GoValue.object [
    ("messaging_product", GoValue.string "whatsapp"),
    ("recipient_type", GoValue.string "individual"),
    ("to", GoValue.string (recipient msg)),
    ("type", GoValue.string "text"),
    ("text", GoValue.object [("body", GoValue.string msg.Message)])]

/-- The `apiURL` of `SendMessage`:
`fmt.Sprintf("https://graph.facebook.com/%s/%s/messages", s.APIVersion, phoneID)`. -/
def sendURL (s : Service) (phoneID : String) : String :=
  "https://graph.facebook.com/" ++ s.APIVersion ++ "/" ++ phoneID ++ "/messages"

/-- The message id extraction of `SendMessage` (service.go 121-128): `messages[0].id` when
`messages` is a non-empty array, its first element a map and `id` a string; else `""`. -/
def messageID (result : List (String × GoValue)) : String :=
  match mapIndex result "messages" with
  | GoValue.array (first :: _) =>
    match first with
    | GoValue.object msgMap =>
      match mapIndex msgMap "id" with
      | GoValue.string id => id
      | _ => ""
    | _ => ""
  | _ => ""

/-- The request `SendMessage` sends: the POST request on `apiURL` with the context and the
marshalled envelope, and the two headers set (service.go 76-88). -/
def sendRequest (s : Service) (c : Context) (apiURL jsonData : String) : Request :=
  { Method := "POST", URL := apiURL, Body := some jsonData, Query := [],
    Header := [("Content-Type", "application/json"),
      ("Authorization", "Bearer " ++ s.AccessToken)],
    Ctx := some c }

/-- The part of `SendMessage` after the phone id is known (service.go 51-134). -/
def Service.sendWithPhoneID (w : World) (s : Service) (c : Context) (msg : OutgoingMessage)
    (phoneID : String) : Outcome MessageResponse × List Effect :=
  let apiURL := sendURL s phoneID
  match w.Marshal (requestBody msg) with
  | Except.error err =>
    (Outcome.returned none (some (Errorf "failed to marshal request: " err)), [])
  | Except.ok jsonData =>
    match w.NewRequestWithContext c "POST" apiURL jsonData with
    | some err =>
      (Outcome.returned none (some (Errorf "failed to create request: " err)), [])
    | none =>
      let req0 : Request := ⟨"POST", apiURL, some jsonData, [], [], some c⟩
      let req := sendRequest s c apiURL jsonData
      match w.Do req with
      | Except.error err =>
        (Outcome.returned none (some (Errorf "failed to send request: " err)),
          [Effect.built req0, Effect.issued req])
      | Except.ok resp =>
        match resp.Body with
        | Except.error err =>
          (Outcome.returned none (some (Errorf "failed to read response: " err)),
            [Effect.built req0, Effect.issued req])
        | Except.ok body =>
          if resp.StatusCode ≥ 400 then
            (Outcome.returned (some ⟨false, apiErrorText resp.StatusCode body, ""⟩) none,
              [Effect.built req0, Effect.issued req])
          else
            match w.UnmarshalMap body with
            | Except.error err =>
              (Outcome.returned none (some (Errorf "failed to parse response: " err)),
                [Effect.built req0, Effect.issued req])
            | Except.ok result =>
              (Outcome.returned (some ⟨true, "Message sent successfully", messageID result⟩)
                none, [Effect.built req0, Effect.issued req])

/-- `Service.SendMessage` (service.go 39-135), with the requests it builds and sends.
`phones.Data[0]` panics on an empty list, `phones.Data` on a nil `phones`. -/
def Service.SendMessage (w : World) (s : Service) (c : Context) (msg : OutgoingMessage) :
    Outcome MessageResponse × List Effect :=
  match s.ListPhoneNumbers w with
  | (⟨_, some err⟩, fx) =>
    (Outcome.returned none (some (Errorf "failed to list phone numbers: " err)), fx)
  | (⟨none, none⟩, fx) =>
    (Outcome.panicked "invalid memory address or nil pointer dereference", fx)
  | (⟨some phones, none⟩, fx) =>
    match phones.Data with
    | [] => (Outcome.panicked "index out of range [0] with length 0", fx)
    | phone :: _ =>
      let phoneID := phone.ID
      let r := s.sendWithPhoneID w c msg phoneID
      (r.1, fx ++ r.2)

/-! ## `service.go`: `ProcessWebhook` -/

/-- The body of the innermost loop of `ProcessWebhook` (service.go 182-196): the
`internalMsg` built from one remote message of a change. -/
def internalMsg (change : WebhookChange) (message : WebhookRemoteMessage) : WebhookMessage :=
  let senderID := message.From
  let messageText := if message.Type_ == "text" then message.Text.Body else ""
  { SenderID := senderID
    RecipientID := change.Value.Metadata.PhoneNumberID
    Timestamp := message.Timestamp
    MessageID := message.ID
    Body := messageText
    Type_ := message.Type_
    Media := none }

/-- The loop over `change.Value.Messages` (service.go 181-205), appending to the records
printed so far. -/
def processMessages (change : WebhookChange) (printed : List WebhookMessage) :
    List WebhookRemoteMessage → List WebhookMessage
  | [] => printed
  | message :: rest => processMessages change (printed ++ [internalMsg change message]) rest

/-- The loop over `entry.Changes` (service.go 178-207). -/
def processChanges (printed : List WebhookMessage) : List WebhookChange → List WebhookMessage
  | [] => printed
  | change :: rest =>
    if change.Field == "messages" then
      processChanges (processMessages change printed change.Value.Messages) rest
    else
      processChanges printed rest

/-- The loop over `webhookData.Entry` (service.go 177-208). -/
def processEntries (printed : List WebhookMessage) : List WebhookEntry → List WebhookMessage
  | [] => printed
  | entry :: rest => processEntries (processChanges printed entry.Changes) rest

/-- `Service.ProcessWebhook` (service.go 138-211): the returned error and the records
handed to `fmt.Printf`, in order. -/
def Service.ProcessWebhook (w : World) (_s : Service) (_ctx : Context) (payload : String) :
    Option GoError × List WebhookMessage :=
  match w.UnmarshalWebhook payload with
  | Except.error err => (some (Errorf "failed to parse webhook payload: " err), [])
  | Except.ok webhookData => (none, processEntries [] webhookData.Entry)

/-! ## `handler.go`: `SendMessage` -/

/-- `Handler.SendMessage` (handler.go 35-62), with the requests the service builds and
sends. -/
def Handler.SendMessage (w : World) (h : Handler) (c : EchoContext) :
    HandlerOutcome × List Effect :=
  match c.Bind with
  | Except.error _ =>
    (c.JSON StatusBadRequest (some ⟨false, "Invalid request format", ""⟩), [])
  | Except.ok msg =>
    if msg.To == "" || msg.Message == "" then
      (c.JSON StatusBadRequest
        (some ⟨false, "Both 'to' and 'message' fields are required", ""⟩), [])
    else
      match h.service.SendMessage w c.Ctx msg with
      | (Outcome.panicked reason, fx) => (HandlerOutcome.panicked reason, fx)
      | (Outcome.returned _ (some err), fx) =>
        (c.JSON StatusInternalServerError (some ⟨false, err.msg, ""⟩), fx)
      | (Outcome.returned resp none, fx) => (c.JSON StatusOK resp, fx)

/-! ## `handler.go`: `VerifyWebhook` -/

/-- `Handler.VerifyWebhook` (handler.go 103-115). -/
def Handler.VerifyWebhook (h : Handler) (c : EchoContext) : HandlerOutcome :=
  let mode := c.QueryParam "hub.mode"
  let token := c.QueryParam "hub.verify_token"
  let challenge := c.QueryParam "hub.challenge"
  if mode == "subscribe" && token == h.service.WebhookSecret then
    c.String StatusOK challenge
  else
    c.String StatusForbidden "Verification failed"

/-! ## Projections used in the statements -/

/-- The response a handler call wrote, if it wrote one. -/
def HandlerOutcome.reply? : HandlerOutcome → Option Reply
  | HandlerOutcome.replied reply _ => some reply
  | HandlerOutcome.panicked _ => none

/-- The outcome of a call of `SendMessage`, without the effects. -/
def Service.SendMessageOutcome (w : World) (s : Service) (c : Context)
    (msg : OutgoingMessage) : Outcome MessageResponse :=
  (s.SendMessage w c msg).1

/-- The send request of a call of `SendMessage` got the response with status `code` whose
body read gave `body`: a POST request was issued in the call and the world answers it so. -/
def sendCompleted (w : World) (s : Service) (c : Context) (msg : OutgoingMessage)
    (code : Nat) (body : Except GoError String) : Prop :=
  ∃ req, Effect.issued req ∈ (s.SendMessage w c msg).2 ∧ req.Method = "POST"
    ∧ w.Do req = Except.ok ⟨code, body⟩

/-- What `SendMessage` returns once its send request got a response whose body was read. -/
def afterResponse (w : World) (code : Nat) (b : String) : Outcome MessageResponse :=
  if code ≥ 400 then
    Outcome.returned (some ⟨false, apiErrorText code b, ""⟩) none
  else
    match w.UnmarshalMap b with
    | Except.error err => Outcome.returned none (some (Errorf "failed to parse response: " err))
    | Except.ok result =>
      Outcome.returned (some ⟨true, "Message sent successfully", messageID result⟩) none

/-! ## Example worlds and inputs -/

/-- One registered phone number, as the lookup of the examples returns it. -/
def examplePhone : PhoneNumber :=
  ⟨"106540352242922", "Test Number", "+1 555-072-4621", "GREEN"⟩

/-- An example world: every request can be created, the envelope is marshalled to a fixed
text, the lookup is answered 200 with one phone number, and the send request is answered
with the given status and body, decoded to the given map. -/
def exampleWorld (code : Nat) (body : String) (decoded : List (String × GoValue)) : World :=
  { Marshal := fun _ => Except.ok "envelope"
    NewRequest := fun _ _ => none
    NewRequestWithContext := fun _ _ _ _ => none
    Do := fun req =>
      if req.Method == "GET" then Except.ok ⟨200, Except.ok "phones"⟩
      else Except.ok ⟨code, Except.ok body⟩
    UnmarshalMap := fun b =>
      if b == body then Except.ok decoded else Except.error ⟨"invalid character"⟩
    UnmarshalPhoneNumbers := fun _ => Except.ok ⟨[examplePhone], ⟨⟨"", ""⟩, ""⟩⟩
    UnmarshalWebhook := fun _ => Except.error ⟨"unexpected end of JSON input"⟩ }

/-- The service of the examples. -/
def exampleService : Service :=
  ⟨"token", "102290129340398", "v19.0", "secret"⟩

/-! ## The webhook events as the specification words them -/

/-- The event of one remote message `m` of a change `ch`: sender `m.from`, recipient the
change's `metadata.phone_number_id`, timestamp, id and type of `m`, no media, and as body
`m.text.body` when the type is `"text"`, the empty string otherwise. -/
def eventOf (ch : WebhookChange) (m : WebhookRemoteMessage) : WebhookMessage :=
  { SenderID := m.From
    RecipientID := ch.Value.Metadata.PhoneNumberID
    Timestamp := m.Timestamp
    MessageID := m.ID
    Type_ := m.Type_
    Media := none
    Body := if m.Type_ = "text" then m.Text.Body else "" }

/-- The events of a decoded payload in payload order: over the entries, then over the changes
whose field is `"messages"`, then over the messages, one event per message. -/
def eventsInPayloadOrder (d : WebhookData) : List WebhookMessage :=
  d.Entry.flatMap (fun e =>
    (e.Changes.filter (fun ch => decide (ch.Field = "messages"))).flatMap (fun ch =>
      ch.Value.Messages.map (eventOf ch)))

/-- An example world for the webhook: the payload `accepted` decodes to `d`, every other
payload is rejected with the diagnostic `diag`. -/
def webhookWorld (accepted : String) (d : WebhookData) (diag : String) : World :=
  { Marshal := fun _ => Except.ok "envelope"
    NewRequest := fun _ _ => none
    NewRequestWithContext := fun _ _ _ _ => none
    Do := fun _ => Except.error ⟨"connection refused"⟩
    UnmarshalMap := fun _ => Except.ok []
    UnmarshalPhoneNumbers := fun _ => Except.ok ⟨[], ⟨⟨"", ""⟩, ""⟩⟩
    UnmarshalWebhook := fun p => if p == accepted then Except.ok d else Except.error ⟨diag⟩ }

/-- The invalid payload of `TestProcessWebhookInvalidPayload`. -/
def invalidPayload : String :=
  "\x7b\"object\": \"whatsapp_business_account\", \"entry\": [\x7d"

/-- The decoded payload of `TestProcessWebhook`, with a second change on another field and a
second message of type `image` that carries a text body. -/
def exampleWebhookData : WebhookData :=
  { Object := "whatsapp_business_account"
    Entry := [
      { ID := "123456789"
        Changes := [
          { Field := "messages"
            Value :=
              { MessagingProduct := "whatsapp"
                Metadata := ⟨"6591234567", "9876543210"⟩
                Contacts := [⟨⟨"Test User"⟩, "6598765432"⟩]
                Messages := [
                  ⟨"6598765432", "wamid.test123", "1677721357",
                    ⟨"Hello, this is a test message"⟩, "text"⟩,
                  ⟨"6598765432", "wamid.test124", "1677721358", ⟨"caption"⟩, "image"⟩] } },
          { Field := "statuses"
            Value :=
              { MessagingProduct := "whatsapp"
                Metadata := ⟨"6591234567", "9876543210"⟩
                Contacts := []
                Messages := [
                  ⟨"6598765432", "wamid.test125", "1677721359", ⟨"ignored"⟩, "text"⟩] } }] }] }

/-- The example payload with the field of its first change renamed, so that no change is on
`"messages"`. -/
def exampleStatusData : WebhookData :=
  { Object := "whatsapp_business_account"
    Entry := [
      { ID := "123456789"
        Changes := [
          { Field := "statuses"
            Value :=
              { MessagingProduct := "whatsapp"
                Metadata := ⟨"6591234567", "9876543210"⟩
                Contacts := []
                Messages := [
                  ⟨"6598765432", "wamid.test125", "1677721359", ⟨"ignored"⟩, "text"⟩] } }] }] }

/-! ## Responses of the remote API -/

/-- The lookup request of a call of `ListPhoneNumbers` got the response with status `code`
whose body read gave `body`: the request was issued in the call and the world answers it
so. -/
def lookupCompleted (w : World) (s : Service) (code : Nat) (body : Except GoError String) :
    Prop :=
  ∃ req, Effect.issued req ∈ (s.ListPhoneNumbers w).2 ∧ w.Do req = Except.ok ⟨code, body⟩

/-- What `ListPhoneNumbers` returns once its request got a response whose body was read. -/
def afterLookupResponse (w : World) (code : Nat) (b : String) : Ret PhoneNumbersResponse :=
  if code ≥ 400 then
    ⟨none, some ⟨apiErrorText code b⟩⟩
  else
    match w.UnmarshalPhoneNumbers b with
    | Except.error err => ⟨none, some (Errorf "failed to parse response: " err)⟩
    | Except.ok phoneNumbersResp => ⟨some phoneNumbersResp, none⟩

/-- An example world for the lookup: every request is answered with the given status and
body, and the body `{"data":[]}` decodes to an empty phone-number list. -/
def lookupWorld (code : Nat) (body : String) : World :=
  { Marshal := fun _ => Except.ok "envelope"
    NewRequest := fun _ _ => none
    NewRequestWithContext := fun _ _ _ _ => none
    Do := fun _ => Except.ok ⟨code, Except.ok body⟩
    UnmarshalMap := fun _ => Except.ok []
    UnmarshalPhoneNumbers := fun b =>
      if b == "\x7b\"data\":[]\x7d" then Except.ok ⟨[], ⟨⟨"", ""⟩, ""⟩⟩
      else Except.error ⟨"invalid character"⟩
    UnmarshalWebhook := fun _ => Except.error ⟨"unexpected end of JSON input"⟩ }

/-- An example echo context: the given binding outcome, no query parameter, and writes that
succeed. -/
def exampleEcho (bind : Except GoError OutgoingMessage) : EchoContext :=
  { QueryParam := fun _ => ""
    Bind := bind
    Body := Except.ok ""
    Ctx := 0
    Write := fun _ => none }

/-- A world in which the business account has no phone number: the lookup is answered 200
with a body that decodes to an empty `data` list. -/
def emptyAccountWorld : World :=
  { Marshal := fun _ => Except.ok "envelope"
    NewRequest := fun _ _ => none
    NewRequestWithContext := fun _ _ _ _ => none
    Do := fun _ => Except.ok ⟨200, Except.ok "\x7b\"data\":[]\x7d"⟩
    UnmarshalMap := fun _ => Except.ok []
    UnmarshalPhoneNumbers := fun _ => Except.ok ⟨[], ⟨⟨"", ""⟩, ""⟩⟩
    UnmarshalWebhook := fun _ => Except.error ⟨"unexpected end of JSON input"⟩ }

/-- A second registered phone number. -/
def secondPhone : PhoneNumber :=
  ⟨"209871234567890", "Second Number", "+1 555-010-9999", "GREEN"⟩

/-- An example world whose lookup returns two phone numbers, `examplePhone` first; the send
request is answered 200 with a body that decodes to an empty map. -/
def twoPhonesWorld : World :=
  { Marshal := fun _ => Except.ok "envelope"
    NewRequest := fun _ _ => none
    NewRequestWithContext := fun _ _ _ _ => none
    Do := fun req =>
      if req.Method == "GET" then Except.ok ⟨200, Except.ok "phones"⟩
      else Except.ok ⟨200, Except.ok "sent"⟩
    UnmarshalMap := fun _ => Except.ok []
    UnmarshalPhoneNumbers := fun _ => Except.ok ⟨[examplePhone, secondPhone], ⟨⟨"", ""⟩, ""⟩⟩
    UnmarshalWebhook := fun _ => Except.error ⟨"unexpected end of JSON input"⟩ }

/-- The request body of `TestSendMessageHandler`: a JSON object cut off after the `to`
member. -/
def truncatedBody : String :=
  "\x7b\"to\":\"6598232744\",\""

/-- The echo context of `TestSendMessageHandler`: the truncated body, on which echo's JSON
binding fails with `unexpected EOF`, and a recorder whose writes succeed. -/
def truncatedRequest : EchoContext :=
  { QueryParam := fun _ => ""
    Bind := Except.error ⟨"code=400, message=unexpected EOF, internal=unexpected EOF"⟩
    Body := Except.ok truncatedBody
    Ctx := 0
    Write := fun _ => none }

/-- The context of `TestSendMessageHandler` under a binder that would keep the members read
before the cut: `to` is bound, `message` stays empty. -/
def truncatedRequestLenient : EchoContext :=
  { QueryParam := fun _ => ""
    Bind := Except.ok ⟨"6598232744", "", ""⟩
    Body := Except.ok truncatedBody
    Ctx := 0
    Write := fun _ => none }

/-! ## `internal/ngrok/service.go`: `BuildURL` -/

/-- `strings.HasSuffix(s, suffix)`:
`len(s) >= len(suffix) && s[len(s)-len(suffix):] == suffix`. -/
def HasSuffix (s suf : String) : Bool :=
  decide (s.data.length ≥ suf.data.length)
    && (s.data.drop (s.data.length - suf.data.length) == suf.data)

/-- `ngrok.BuildURL` (internal/ngrok/service.go 17-33). The slice
`baseURL[:len(baseURL)-1]` is taken only when the last byte is `/`, so it removes the last
character. -/
def ngrok.BuildURL (baseURL : String) (path : String) : String :=
  if baseURL == "" then
    ""
  else
    let path := if !HasPrefix path "/" then "/" ++ path else path
    let baseURL :=
      if HasSuffix baseURL "/" then ⟨baseURL.data.take (baseURL.data.length - 1)⟩ else baseURL
    baseURL ++ path

/-! ## Lemmas on the effects -/

theorem ListPhoneNumbers_issued_get (w : World) (s : Service) (req : Request)
    (h : Effect.issued req ∈ (s.ListPhoneNumbers w).2) : req.Method = "GET" := by
  unfold Service.ListPhoneNumbers at h
  have key : ∀ l : List Effect, l = [] ∨ l = [Effect.built ⟨"GET", lookupURL s, none, [], [], none⟩,
      Effect.issued (lookupRequest s)] → Effect.issued req ∈ l → req.Method = "GET" := by
    intro l hl hm
    rcases hl with rfl | rfl
    · simp at hm
    · simp at hm
      subst hm
      rfl
  refine key _ ?_ h
  simp only []
  split
  · left; rfl
  · split
    · right; rfl
    · split
      · right; rfl
      · split
        · right; rfl
        · split <;> (right; rfl)

theorem sendWithPhoneID_issued (w : World) (s : Service) (c : Context)
    (msg : OutgoingMessage) (phoneID : String) (req : Request)
    (h : Effect.issued req ∈ (s.sendWithPhoneID w c msg phoneID).2) :
    ∃ jsonData, w.Marshal (requestBody msg) = Except.ok jsonData
      ∧ w.NewRequestWithContext c "POST" (sendURL s phoneID) jsonData = none
      ∧ req = sendRequest s c (sendURL s phoneID) jsonData := by
  unfold Service.sendWithPhoneID at h
  simp only [] at h
  split at h
  · simp at h
  · rename_i jsonData hj
    split at h
    · simp at h
    · rename_i hn
      refine ⟨jsonData, hj, hn, ?_⟩
      have key : ∀ l : List Effect,
          l = [Effect.built ⟨"POST", sendURL s phoneID, some jsonData, [], [], some c⟩,
            Effect.issued (sendRequest s c (sendURL s phoneID) jsonData)] →
          Effect.issued req ∈ l → req = sendRequest s c (sendURL s phoneID) jsonData := by
        intro l hl hm
        subst hl
        simpa using hm
      refine key _ ?_ h
      split
      · rfl
      · split
        · rfl
        · split
          · rfl
          · split <;> rfl

theorem sendWithPhoneID_of_response (w : World) (s : Service) (c : Context)
    (msg : OutgoingMessage) (phoneID jsonData : String) (code : Nat) (b : String)
    (hj : w.Marshal (requestBody msg) = Except.ok jsonData)
    (hn : w.NewRequestWithContext c "POST" (sendURL s phoneID) jsonData = none)
    (hd : w.Do (sendRequest s c (sendURL s phoneID) jsonData) = Except.ok ⟨code, Except.ok b⟩) :
    (s.sendWithPhoneID w c msg phoneID).1 = afterResponse w code b := by
  unfold Service.sendWithPhoneID afterResponse
  simp only [hj, hn, hd]
  split
  · rfl
  · split <;> rfl

theorem SendMessage_issued_post (w : World) (s : Service) (c : Context)
    (msg : OutgoingMessage) (req : Request)
    (h : Effect.issued req ∈ (s.SendMessage w c msg).2) (hp : req.Method = "POST") :
    ∃ phones phone rest fx, s.ListPhoneNumbers w = (⟨some phones, none⟩, fx)
      ∧ phones.Data = phone :: rest
      ∧ (s.SendMessage w c msg).1 = (s.sendWithPhoneID w c msg phone.ID).1
      ∧ Effect.issued req ∈ (s.sendWithPhoneID w c msg phone.ID).2 := by
  have hget : ∀ fx, (s.ListPhoneNumbers w).2 = fx → Effect.issued req ∉ fx := by
    intro fx hfx hm
    have := ListPhoneNumbers_issued_get w s req (hfx ▸ hm)
    rw [hp] at this
    exact absurd this (by decide)
  unfold Service.SendMessage at h ⊢
  rcases hl : s.ListPhoneNumbers w with ⟨⟨res, err⟩, fx⟩
  have hnot := hget fx (by rw [hl])
  rw [hl] at h
  cases err with
  | some e => exact absurd (by simpa using h) hnot
  | none =>
    cases res with
    | none => exact absurd (by simpa using h) hnot
    | some phones =>
      cases hd : phones.Data with
      | nil =>
        simp only [hd] at h
        exact absurd h hnot
      | cons phone rest =>
        simp only [hd] at h
        refine ⟨phones, phone, rest, fx, rfl, hd, ?_, ?_⟩
        · simp only [hd]
        · rcases List.mem_append.mp h with h1 | h2
          · exact absurd h1 hnot
          · exact h2

theorem sendCompleted_outcome (w : World) (s : Service) (c : Context)
    (msg : OutgoingMessage) (code : Nat) (b : String)
    (h : sendCompleted w s c msg code (Except.ok b)) :
    s.SendMessageOutcome w c msg = afterResponse w code b := by
  obtain ⟨req, hm, hp, hd⟩ := h
  obtain ⟨phones, phone, rest, fx, _, _, hout, hin⟩ := SendMessage_issued_post w s c msg req hm hp
  obtain ⟨jsonData, hj, hn, hreq⟩ := sendWithPhoneID_issued w s c msg phone.ID req hin
  unfold Service.SendMessageOutcome
  rw [hout]
  exact sendWithPhoneID_of_response w s c msg phone.ID jsonData code b hj hn (hreq ▸ hd)

/-! ## Lemmas on strings and on the message id -/

theorem TrimPrefix_plus_append (d : String) : TrimPrefix ("+" ++ d) "+" = d := by
  have hd : ("+" ++ d).data = '+' :: d.data := by
    rw [String.data_append]
    rfl
  have hp : ("+" : String).data = ['+'] := rfl
  unfold TrimPrefix HasPrefix
  rw [hd, hp]
  simp

theorem TrimPrefix_of_not_hasPrefix (s pre : String) (h : HasPrefix s pre = false) :
    TrimPrefix s pre = s := by
  unfold TrimPrefix
  simp [h]

theorem messageID_of_id (result m : List (String × GoValue)) (rest : List GoValue)
    (k : String)
    (hm : mapIndex result "messages" = GoValue.array (GoValue.object m :: rest))
    (hk : mapIndex m "id" = GoValue.string k) : messageID result = k := by
  unfold messageID
  rw [hm]
  simp only [hk]

theorem messageID_of_no_id (result : List (String × GoValue))
    (h : ¬ ∃ m rest k, mapIndex result "messages" = GoValue.array (GoValue.object m :: rest)
      ∧ mapIndex m "id" = GoValue.string k) : messageID result = "" := by
  unfold messageID
  split
  · rename_i first tl hmsg
    split
    · rename_i msgMap
      split
      · rename_i id hid
        exact absurd ⟨msgMap, tl, id, hmsg, hid⟩ h
      · rfl
    · rfl
  · rfl

/-! ## Lemmas on `SendMessage` and `ProcessWebhook` -/

theorem sendWithPhoneID_returns (w : World) (s : Service) (c : Context)
    (msg : OutgoingMessage) (phoneID : String) :
    ∃ res err, (s.sendWithPhoneID w c msg phoneID).1 = Outcome.returned res err
      ∧ (res.isSome ∨ err.isSome) := by
  unfold Service.sendWithPhoneID
  simp only []
  split
  · exact ⟨_, _, rfl, Or.inr rfl⟩
  · split
    · exact ⟨_, _, rfl, Or.inr rfl⟩
    · split
      · exact ⟨_, _, rfl, Or.inr rfl⟩
      · split
        · exact ⟨_, _, rfl, Or.inr rfl⟩
        · split
          · exact ⟨_, _, rfl, Or.inl rfl⟩
          · split
            · exact ⟨_, _, rfl, Or.inr rfl⟩
            · exact ⟨_, _, rfl, Or.inl rfl⟩

/-- Whenever `SendMessage` returns, the result or the error is non-nil. -/
theorem SendMessage_never_nil_nil (w : World) (s : Service) (c : Context)
    (msg : OutgoingMessage) :
    (s.SendMessage w c msg).1 ≠ Outcome.returned none none := by
  unfold Service.SendMessage
  rcases s.ListPhoneNumbers w with ⟨⟨res, err⟩, fx⟩
  cases err with
  | some e => simp
  | none =>
    cases res with
    | none => simp
    | some phones =>
      cases hd : phones.Data with
      | nil => simp [hd]
      | cons phone rest =>
        simp only [hd]
        obtain ⟨r, e, hr, hne⟩ := sendWithPhoneID_returns w s c msg phone.ID
        rw [hr]
        intro hcontra
        injection hcontra with h1 h2
        subst h1 h2
        simp at hne

theorem processMessages_eq (change : WebhookChange) (messages : List WebhookRemoteMessage) :
    ∀ printed : List WebhookMessage,
      processMessages change printed messages = printed ++ messages.map (internalMsg change) := by
  induction messages with
  | nil => intro printed; simp [processMessages]
  | cons m rest ih => intro printed; simp [processMessages, ih]

theorem processChanges_eq (changes : List WebhookChange) :
    ∀ printed : List WebhookMessage,
      processChanges printed changes =
        printed ++ (changes.filter (fun ch => ch.Field == "messages")).flatMap
          (fun ch => ch.Value.Messages.map (internalMsg ch)) := by
  induction changes with
  | nil => intro printed; simp [processChanges]
  | cons ch rest ih =>
    intro printed
    unfold processChanges
    by_cases hf : ch.Field = "messages"
    · simp [hf, ih, processMessages_eq, List.filter_cons]
    · simp [hf, ih, List.filter_cons]

theorem processEntries_eq (entries : List WebhookEntry) :
    ∀ printed : List WebhookMessage,
      processEntries printed entries =
        printed ++ entries.flatMap (fun e =>
          (e.Changes.filter (fun ch => ch.Field == "messages")).flatMap
            (fun ch => ch.Value.Messages.map (internalMsg ch))) := by
  induction entries with
  | nil => intro printed; simp [processEntries]
  | cons e rest ih =>
    intro printed
    simp [processEntries, ih, processChanges_eq]

theorem processChanges_skip (changes : List WebhookChange)
    (h : ∀ ch ∈ changes, ch.Field ≠ "messages") (printed : List WebhookMessage) :
    processChanges printed changes = printed := by
  rw [processChanges_eq]
  have hf : changes.filter (fun ch => ch.Field == "messages") = [] := by
    rw [List.filter_eq_nil_iff]
    intro ch hch
    simpa using h ch hch
  simp [hf]

theorem processEntries_skip (entries : List WebhookEntry)
    (h : ∀ e ∈ entries, ∀ ch ∈ e.Changes, ch.Field ≠ "messages") :
    ∀ printed : List WebhookMessage, processEntries printed entries = printed := by
  induction entries with
  | nil => intro printed; rfl
  | cons e rest ih =>
    intro printed
    unfold processEntries
    rw [processChanges_skip e.Changes (h e (List.mem_cons_self e rest))]
    exact ih (fun e2 he2 => h e2 (List.mem_cons_of_mem e he2)) printed

theorem internalMsg_eq_eventOf (ch : WebhookChange) (m : WebhookRemoteMessage) :
    internalMsg ch m = eventOf ch m := by
  unfold internalMsg eventOf
  by_cases h : m.Type_ = "text" <;> simp [h]

theorem ListPhoneNumbers_issued (w : World) (s : Service) (req : Request)
    (h : Effect.issued req ∈ (s.ListPhoneNumbers w).2) :
    req = lookupRequest s ∧ w.NewRequest "GET" (lookupURL s) = none := by
  unfold Service.ListPhoneNumbers at h
  simp only [] at h
  split at h
  · simp at h
  · rename_i hn
    refine ⟨?_, hn⟩
    have key : ∀ l : List Effect,
        l = [Effect.built ⟨"GET", lookupURL s, none, [], [], none⟩,
          Effect.issued (lookupRequest s)] →
        Effect.issued req ∈ l → req = lookupRequest s := by
      intro l hl hm
      subst hl
      simpa using hm
    refine key _ ?_ h
    split
    · rfl
    · split
      · rfl
      · split
        · rfl
        · split <;> rfl

theorem lookupCompleted_result (w : World) (s : Service) (code : Nat) (b : String)
    (h : lookupCompleted w s code (Except.ok b)) :
    (s.ListPhoneNumbers w).1 = afterLookupResponse w code b := by
  obtain ⟨req, hm, hd⟩ := h
  obtain ⟨hreq, hn⟩ := ListPhoneNumbers_issued w s req hm
  subst hreq
  unfold Service.ListPhoneNumbers afterLookupResponse
  simp only [hn, hd]
  split
  · rfl
  · split <;> rfl

/-! ## Theorems -/

/-- C1. `VerifyWebhook` answers 200 with the challenge verbatim exactly when the mode is
`"subscribe"` and the token equals the configured secret; in every other case it answers
403 with the fixed body `"Verification failed"`. Every call ends in one of the two. -/
theorem VerifyWebhook_two_outcomes (h : Handler) (c : EchoContext) :
    ((h.VerifyWebhook c).reply? = some ⟨200, ReplyBody.text (c.QueryParam "hub.challenge")⟩
      ↔ (c.QueryParam "hub.mode" = "subscribe"
          ∧ c.QueryParam "hub.verify_token" = h.service.WebhookSecret))
    ∧ ((h.VerifyWebhook c).reply? = some ⟨403, ReplyBody.text "Verification failed"⟩
      ↔ ¬ (c.QueryParam "hub.mode" = "subscribe"
          ∧ c.QueryParam "hub.verify_token" = h.service.WebhookSecret)) := by
  by_cases hm : c.QueryParam "hub.mode" = "subscribe" <;>
    by_cases ht : c.QueryParam "hub.verify_token" = h.service.WebhookSecret <;>
    simp [Handler.VerifyWebhook, EchoContext.String, HandlerOutcome.reply?, hm, ht,
      StatusOK, StatusForbidden]

/-- C2. When the send request of `SendMessage` (issued only after a successful lookup)
gets a response with status `code >= 400` and raw body `b`, the call returns no error and
the result `Success = false`, `ID = ""`, `Message = "API error (status <code>): <b>"`. -/
theorem SendMessage_api_error (w : World) (s : Service) (c : Context) (msg : OutgoingMessage)
    (code : Nat) (b : String) (hsend : sendCompleted w s c msg code (Except.ok b))
    (hcode : code ≥ 400) :
    s.SendMessageOutcome w c msg =
      Outcome.returned
        (some ⟨false, "API error (status " ++ toString code ++ "): " ++ b, ""⟩) none := by
  rw [sendCompleted_outcome w s c msg code b hsend]
  unfold afterResponse apiErrorText
  rw [if_pos hcode]

/-- C2 at a 401 answer with body `unauthorized`: the message is
`API error (status 401): unauthorized`. -/
theorem SendMessage_api_error_witness :
    sendCompleted (exampleWorld 401 "unauthorized" []) exampleService 0
        ⟨"+6598765432", "hi", ""⟩ 401 (Except.ok "unauthorized")
      ∧ exampleService.SendMessageOutcome (exampleWorld 401 "unauthorized" []) 0
          ⟨"+6598765432", "hi", ""⟩ =
        Outcome.returned (some ⟨false, "API error (status 401): unauthorized", ""⟩) none :=
  have hs : sendCompleted (exampleWorld 401 "unauthorized" []) exampleService 0
      ⟨"+6598765432", "hi", ""⟩ 401 (Except.ok "unauthorized") :=
    ⟨sendRequest exampleService 0 (sendURL exampleService examplePhone.ID) "envelope",
      by decide, rfl, rfl⟩
  ⟨hs, SendMessage_api_error _ _ _ _ 401 "unauthorized" hs (by decide)⟩

/-- C3. The envelope `SendMessage` builds carries as `to` the destination with one leading
`+` removed. For a destination `d` that does not begin with `+`, the envelope for `"+" ++ d`
and the envelope for `d` are the same map with the fixed fields, `to = d` and the message
body, and everything `SendMessage` does coincides for the two. For a destination
`"++" ++ d` the `to` field is `"+" ++ d`. The body of every POST request `SendMessage`
issues is the marshalled envelope. -/
theorem requestBody_strips_one_plus (message media : String) :
    (∀ d : String, HasPrefix d "+" = false →
        requestBody ⟨"+" ++ d, message, media⟩ =
          GoValue.object [
            ("messaging_product", GoValue.string "whatsapp"),
            ("recipient_type", GoValue.string "individual"),
            ("to", GoValue.string d),
            ("type", GoValue.string "text"),
            ("text", GoValue.object [("body", GoValue.string message)])]
        ∧ requestBody ⟨d, message, media⟩ =
          GoValue.object [
            ("messaging_product", GoValue.string "whatsapp"),
            ("recipient_type", GoValue.string "individual"),
            ("to", GoValue.string d),
            ("type", GoValue.string "text"),
            ("text", GoValue.object [("body", GoValue.string message)])]
        ∧ ∀ (w : World) (s : Service) (c : Context),
            s.SendMessage w c ⟨"+" ++ d, message, media⟩ = s.SendMessage w c ⟨d, message, media⟩)
    ∧ (∀ d : String,
        requestBody ⟨"++" ++ d, message, media⟩ =
          GoValue.object [
            ("messaging_product", GoValue.string "whatsapp"),
            ("recipient_type", GoValue.string "individual"),
            ("to", GoValue.string ("+" ++ d)),
            ("type", GoValue.string "text"),
            ("text", GoValue.object [("body", GoValue.string message)])])
    ∧ (∀ (w : World) (s : Service) (c : Context) (dest : String) (req : Request),
        Effect.issued req ∈ (s.SendMessage w c ⟨dest, message, media⟩).2 →
        req.Method = "POST" →
        ∃ jsonData, w.Marshal (requestBody ⟨dest, message, media⟩) = Except.ok jsonData
          ∧ req.Body = some jsonData) := by
  refine ⟨?_, ?_, ?_⟩
  · intro d hd
    have h1 : requestBody ⟨"+" ++ d, message, media⟩ =
        GoValue.object [
          ("messaging_product", GoValue.string "whatsapp"),
          ("recipient_type", GoValue.string "individual"),
          ("to", GoValue.string d),
          ("type", GoValue.string "text"),
          ("text", GoValue.object [("body", GoValue.string message)])] := by
      unfold requestBody recipient
      simp only [TrimPrefix_plus_append]
    have h2 : requestBody ⟨d, message, media⟩ =
        GoValue.object [
          ("messaging_product", GoValue.string "whatsapp"),
          ("recipient_type", GoValue.string "individual"),
          ("to", GoValue.string d),
          ("type", GoValue.string "text"),
          ("text", GoValue.object [("body", GoValue.string message)])] := by
      unfold requestBody recipient
      simp only [TrimPrefix_of_not_hasPrefix d "+" hd]
    refine ⟨h1, h2, ?_⟩
    intro w s c
    unfold Service.SendMessage Service.sendWithPhoneID
    simp only [h1, h2]
  · intro d
    have h2 : ("++" : String) ++ d = "+" ++ ("+" ++ d) := by
      apply String.ext
      simp only [String.data_append]
      rfl
    unfold requestBody recipient
    simp only [h2, TrimPrefix_plus_append]
  · intro w s c dest req hreq hpost
    obtain ⟨_, phone, _, _, _, _, _, hin⟩ :=
      SendMessage_issued_post w s c ⟨dest, message, media⟩ req hreq hpost
    obtain ⟨jsonData, hj, _, hr⟩ :=
      sendWithPhoneID_issued w s c ⟨dest, message, media⟩ phone.ID req hin
    exact ⟨jsonData, hj, by rw [hr]; rfl⟩

/-- C3 at the destinations `+6598765432` and `6598765432`: both envelopes carry
`to = "6598765432"`. -/
theorem requestBody_strips_one_plus_witness :
    HasPrefix "6598765432" "+" = false
      ∧ requestBody ⟨"+" ++ "6598765432", "hi", ""⟩ =
          GoValue.object [
            ("messaging_product", GoValue.string "whatsapp"),
            ("recipient_type", GoValue.string "individual"),
            ("to", GoValue.string "6598765432"),
            ("type", GoValue.string "text"),
            ("text", GoValue.object [("body", GoValue.string "hi")])]
      ∧ requestBody ⟨"6598765432", "hi", ""⟩ =
          GoValue.object [
            ("messaging_product", GoValue.string "whatsapp"),
            ("recipient_type", GoValue.string "individual"),
            ("to", GoValue.string "6598765432"),
            ("type", GoValue.string "text"),
            ("text", GoValue.object [("body", GoValue.string "hi")])] :=
  ⟨by decide, ((requestBody_strips_one_plus "hi" "").1 "6598765432" (by decide)).1,
    ((requestBody_strips_one_plus "hi" "").1 "6598765432" (by decide)).2.1⟩

/-- C4. When the send request of `SendMessage` gets a response with status below 400 whose
body decodes to a JSON object `result`: if `result["messages"]` is a non-empty array whose
first element is an object with string field `id = k`, the call returns no error and
`Success = true`, `Message = "Message sent successfully"`, `ID = k`; if there is no such
`messages[0].id` string, it returns the same result with the empty `ID`. -/
theorem SendMessage_success_id (w : World) (s : Service) (c : Context) (msg : OutgoingMessage)
    (code : Nat) (b : String) (result : List (String × GoValue))
    (hsend : sendCompleted w s c msg code (Except.ok b)) (hcode : code < 400)
    (hdec : w.UnmarshalMap b = Except.ok result) :
    (∀ (m : List (String × GoValue)) (rest : List GoValue) (k : String),
        mapIndex result "messages" = GoValue.array (GoValue.object m :: rest) →
        mapIndex m "id" = GoValue.string k →
        s.SendMessageOutcome w c msg =
          Outcome.returned (some ⟨true, "Message sent successfully", k⟩) none)
    ∧ ((¬ ∃ m rest k, mapIndex result "messages" = GoValue.array (GoValue.object m :: rest)
          ∧ mapIndex m "id" = GoValue.string k) →
        s.SendMessageOutcome w c msg =
          Outcome.returned (some ⟨true, "Message sent successfully", ""⟩) none) := by
  have hout : s.SendMessageOutcome w c msg =
      Outcome.returned (some ⟨true, "Message sent successfully", messageID result⟩) none := by
    rw [sendCompleted_outcome w s c msg code b hsend]
    unfold afterResponse
    rw [if_neg (Nat.not_le.mpr hcode)]
    simp only [hdec]
  constructor
  · intro m rest k hm hk
    rw [hout, messageID_of_id result m rest k hm hk]
  · intro hno
    rw [hout, messageID_of_no_id result hno]

/-- C4 at a 200 answer decoding to `messages[0].id = "wamid.test123"`. -/
theorem SendMessage_success_id_witness :
    sendCompleted
        (exampleWorld 200 "sent"
          [("messages", GoValue.array [GoValue.object [("id", GoValue.string "wamid.test123")]])])
        exampleService 0 ⟨"+6598765432", "hi", ""⟩ 200 (Except.ok "sent")
      ∧ exampleService.SendMessageOutcome
          (exampleWorld 200 "sent"
            [("messages", GoValue.array [GoValue.object [("id", GoValue.string "wamid.test123")]])])
          0 ⟨"+6598765432", "hi", ""⟩ =
        Outcome.returned (some ⟨true, "Message sent successfully", "wamid.test123"⟩) none :=
  have hs : sendCompleted
      (exampleWorld 200 "sent"
        [("messages", GoValue.array [GoValue.object [("id", GoValue.string "wamid.test123")]])])
      exampleService 0 ⟨"+6598765432", "hi", ""⟩ 200 (Except.ok "sent") :=
    ⟨sendRequest exampleService 0 (sendURL exampleService examplePhone.ID) "envelope",
      by decide, rfl, rfl⟩
  ⟨hs, (SendMessage_success_id _ _ _ _ 200 "sent" _ hs (by decide) rfl).1
    [("id", GoValue.string "wamid.test123")] [] "wamid.test123" rfl rfl⟩

/-- C5 fails on the code. With non-empty `To` and `Message`, when the lookup succeeds with an
empty `data` list, `SendMessage` stops on the out-of-range index `phones.Data[0]`: it
returns neither a result nor an error, and only the lookup request was sent. -/
theorem SendMessage_empty_list_panics :
    (exampleService.ListPhoneNumbers emptyAccountWorld).1 = ⟨some ⟨[], ⟨⟨"", ""⟩, ""⟩⟩, none⟩
    ∧ exampleService.SendMessage emptyAccountWorld 0 ⟨"6598765432", "hi", ""⟩ =
      (Outcome.panicked "index out of range [0] with length 0",
        [Effect.built ⟨"GET", lookupURL exampleService, none, [], [], none⟩,
          Effect.issued (lookupRequest exampleService)]) :=
  ⟨rfl, rfl⟩

/-- C6. `ProcessWebhook` returns an error exactly when decoding the payload into the nested
envelope fails; the error's text is `"failed to parse webhook payload: "` followed by the
decoder's diagnostic; every payload that decodes returns nil. -/
theorem ProcessWebhook_error_iff (w : World) (s : Service) (ctx : Context) (payload : String) :
    ((∃ err, (s.ProcessWebhook w ctx payload).1 = some err)
        ↔ ∃ e, w.UnmarshalWebhook payload = Except.error e)
    ∧ (∀ e, w.UnmarshalWebhook payload = Except.error e →
        (s.ProcessWebhook w ctx payload).1
          = some ⟨"failed to parse webhook payload: " ++ e.msg⟩)
    ∧ (∀ d, w.UnmarshalWebhook payload = Except.ok d →
        (s.ProcessWebhook w ctx payload).1 = none) := by
  unfold Service.ProcessWebhook
  cases hdec : w.UnmarshalWebhook payload with
  | error e => simp [Errorf]
  | ok d => simp

/-- C6 at the invalid payload of the test, rejected by the decoder, and at a payload that
decodes to an empty entry list. -/
theorem ProcessWebhook_error_iff_witness :
    (exampleService.ProcessWebhook
        (webhookWorld "\x7b\x7d" ⟨"", []⟩ "invalid character '\x7d' looking for beginning of value")
        0 invalidPayload).1
      = some ⟨"failed to parse webhook payload: invalid character '\x7d' looking for beginning of value"⟩
    ∧ (exampleService.ProcessWebhook
        (webhookWorld "\x7b\x7d" ⟨"", []⟩ "invalid character '\x7d' looking for beginning of value")
        0 "\x7b\x7d").1 = none :=
  ⟨(ProcessWebhook_error_iff _ exampleService 0 invalidPayload).2.1
      ⟨"invalid character '\x7d' looking for beginning of value"⟩ rfl,
    (ProcessWebhook_error_iff
      (webhookWorld "\x7b\x7d" ⟨"", []⟩ "invalid character '\x7d' looking for beginning of value")
      exampleService 0 "\x7b\x7d").2.2 ⟨"", []⟩ rfl⟩

/-- C7. For a payload that decodes and in which every change has a field other than
`"messages"`, `ProcessWebhook` extracts no event and returns nil. -/
theorem ProcessWebhook_other_fields (w : World) (s : Service) (ctx : Context)
    (payload : String) (d : WebhookData) (hdec : w.UnmarshalWebhook payload = Except.ok d)
    (hfield : ∀ e ∈ d.Entry, ∀ ch ∈ e.Changes, ch.Field ≠ "messages") :
    s.ProcessWebhook w ctx payload = (none, []) := by
  unfold Service.ProcessWebhook
  simp only [hdec]
  rw [processEntries_skip d.Entry hfield]

/-- C7 at a payload whose only change is on `statuses` and carries a text message. -/
theorem ProcessWebhook_other_fields_witness :
    exampleService.ProcessWebhook (webhookWorld "statuses" exampleStatusData "invalid") 0
      "statuses" = (none, []) :=
  ProcessWebhook_other_fields (webhookWorld "statuses" exampleStatusData "invalid")
    exampleService 0 "statuses" exampleStatusData rfl (by decide)

/-- C8. For a payload that decodes to `d`, the events `ProcessWebhook` extracts are exactly
`eventsInPayloadOrder d`: in payload order over entries, changes on `"messages"` and
messages, one event per message with the fields of `eventOf`; and it returns nil. -/
theorem ProcessWebhook_events (w : World) (s : Service) (ctx : Context)
    (payload : String) (d : WebhookData) (hdec : w.UnmarshalWebhook payload = Except.ok d) :
    s.ProcessWebhook w ctx payload = (none, eventsInPayloadOrder d) := by
  unfold Service.ProcessWebhook eventsInPayloadOrder
  simp only [hdec]
  rw [processEntries_eq]
  have hfun : (fun ch : WebhookChange => ch.Value.Messages.map (internalMsg ch))
      = (fun ch => ch.Value.Messages.map (eventOf ch)) := by
    funext ch
    exact List.map_congr_left (fun m _ => internalMsg_eq_eventOf ch m)
  have hfil : (fun ch : WebhookChange => ch.Field == "messages")
      = (fun ch => decide (ch.Field = "messages")) := by
    funext ch
    rfl
  simp only [hfun, hfil, List.nil_append]

/-- C8 at the payload of `TestProcessWebhook` extended with an `image` message and a
`statuses` change: two events, the text body kept, the image's body empty. -/
theorem ProcessWebhook_events_witness :
    exampleService.ProcessWebhook (webhookWorld "payload" exampleWebhookData "invalid") 0
        "payload" = (none, eventsInPayloadOrder exampleWebhookData)
    ∧ eventsInPayloadOrder exampleWebhookData =
      [ ⟨"6598765432", "9876543210", "1677721357", "wamid.test123",
          "Hello, this is a test message", "text", none⟩,
        ⟨"6598765432", "9876543210", "1677721358", "wamid.test124", "", "image", none⟩ ] :=
  ⟨ProcessWebhook_events (webhookWorld "payload" exampleWebhookData "invalid")
      exampleService 0 "payload" exampleWebhookData rfl, rfl⟩

/-- The decision table of `Handler.SendMessage` over what the sender does: if the body
cannot be bound, 400 with `Invalid request format`; else if `To` or `Message` is empty, 400
with the required-fields message; in both cases whatever the world, with no request built
or sent. Else, if the sender returns an error `e`, 500 with the text of `e`; if it returns a
result and no error, 200 with that result unchanged; if it panics, no response is written. -/
theorem Handler_SendMessage_response (w : World) (h : Handler) (c : EchoContext) :
    (∀ e, c.Bind = Except.error e →
        h.SendMessage w c =
          (c.JSON 400 (some ⟨false, "Invalid request format", ""⟩), []))
    ∧ (∀ msg, c.Bind = Except.ok msg → (msg.To = "" ∨ msg.Message = "") →
        h.SendMessage w c =
          (c.JSON 400 (some ⟨false, "Both 'to' and 'message' fields are required", ""⟩), []))
    ∧ (∀ msg, c.Bind = Except.ok msg → msg.To ≠ "" → msg.Message ≠ "" →
        (∀ res e, h.service.SendMessageOutcome w c.Ctx msg = Outcome.returned res (some e) →
          (h.SendMessage w c).1 = c.JSON 500 (some ⟨false, e.msg, ""⟩))
        ∧ (∀ res, h.service.SendMessageOutcome w c.Ctx msg = Outcome.returned res none →
          (h.SendMessage w c).1 = c.JSON 200 res)
        ∧ (∀ reason, h.service.SendMessageOutcome w c.Ctx msg = Outcome.panicked reason →
          (h.SendMessage w c).1 = HandlerOutcome.panicked reason)) := by
  refine ⟨?_, ?_, ?_⟩
  · intro e he
    unfold Handler.SendMessage
    simp only [he, StatusBadRequest]
  · intro msg hb hempty
    unfold Handler.SendMessage
    simp only [hb, StatusBadRequest]
    rw [if_pos (by simpa using hempty)]
  · intro msg hb hto hmsg
    have hne : ¬ ((msg.To == "" || msg.Message == "") = true) := by simp [hto, hmsg]
    unfold Service.SendMessageOutcome
    refine ⟨?_, ?_, ?_⟩
    · intro res e hout
      unfold Handler.SendMessage
      simp only [hb, if_neg hne]
      rcases hs : h.service.SendMessage w c.Ctx msg with ⟨out, fx⟩
      rw [hs] at hout
      simp only at hout
      subst hout
      rfl
    · intro res hout
      unfold Handler.SendMessage
      simp only [hb, if_neg hne]
      rcases hs : h.service.SendMessage w c.Ctx msg with ⟨out, fx⟩
      rw [hs] at hout
      simp only at hout
      subst hout
      rfl
    · intro reason hout
      unfold Handler.SendMessage
      simp only [hb, if_neg hne]
      rcases hs : h.service.SendMessage w c.Ctx msg with ⟨out, fx⟩
      rw [hs] at hout
      simp only at hout
      subst hout
      rfl

/-- The decision table at four requests: an unbindable body, a message without text, a send
answered 401 by the remote API (200 with `success = false`), and a send whose lookup cannot
connect (500). -/
theorem Handler_SendMessage_response_witness :
    ((⟨exampleService⟩ : Handler).SendMessage (exampleWorld 401 "unauthorized" [])
        (exampleEcho (Except.error ⟨"unexpected EOF"⟩))).1.reply?
      = some ⟨400, ReplyBody.json (some ⟨false, "Invalid request format", ""⟩)⟩
    ∧ ((⟨exampleService⟩ : Handler).SendMessage (exampleWorld 401 "unauthorized" [])
        (exampleEcho (Except.ok ⟨"6598232744", "", ""⟩))).1.reply?
      = some ⟨400,
          ReplyBody.json (some ⟨false, "Both 'to' and 'message' fields are required", ""⟩)⟩
    ∧ ((⟨exampleService⟩ : Handler).SendMessage (exampleWorld 401 "unauthorized" [])
        (exampleEcho (Except.ok ⟨"6598232744", "hi", ""⟩))).1.reply?
      = some ⟨200,
          ReplyBody.json (some ⟨false, "API error (status 401): unauthorized", ""⟩)⟩
    ∧ ((⟨exampleService⟩ : Handler).SendMessage
        (webhookWorld "" ⟨"", []⟩ "invalid")
        (exampleEcho (Except.ok ⟨"6598232744", "hi", ""⟩))).1.reply?
      = some ⟨500, ReplyBody.json (some
          ⟨false, "failed to list phone numbers: failed to send request: connection refused",
            ""⟩)⟩ :=
  ⟨by
      rw [(Handler_SendMessage_response (exampleWorld 401 "unauthorized" []) ⟨exampleService⟩
        (exampleEcho (Except.error ⟨"unexpected EOF"⟩))).1 ⟨"unexpected EOF"⟩ rfl]
      rfl,
    by
      rw [(Handler_SendMessage_response (exampleWorld 401 "unauthorized" []) ⟨exampleService⟩
        (exampleEcho (Except.ok ⟨"6598232744", "", ""⟩))).2.1 ⟨"6598232744", "", ""⟩ rfl
        (Or.inr rfl)]
      rfl,
    by
      rw [((Handler_SendMessage_response (exampleWorld 401 "unauthorized" []) ⟨exampleService⟩
        (exampleEcho (Except.ok ⟨"6598232744", "hi", ""⟩))).2.2 ⟨"6598232744", "hi", ""⟩ rfl
        (by decide) (by decide)).2.1
        (some ⟨false, "API error (status 401): unauthorized", ""⟩) rfl]
      rfl,
    by
      rw [((Handler_SendMessage_response (webhookWorld "" ⟨"", []⟩ "invalid") ⟨exampleService⟩
        (exampleEcho (Except.ok ⟨"6598232744", "hi", ""⟩))).2.2 ⟨"6598232744", "hi", ""⟩ rfl
        (by decide) (by decide)).1 none
        ⟨"failed to list phone numbers: failed to send request: connection refused"⟩ rfl]
      rfl⟩

/-- C9 fails on the code. For a request that binds to a message with non-empty `To` and
`Message`, when the lookup is answered 200 with an empty `data` list, the sender panics on
`phones.Data[0]` and the handler writes no response: none of the four responses of the
claim (400, 400, 500, 200) is given. -/
theorem Handler_SendMessage_panics_on_empty_list :
    (exampleEcho (Except.ok ⟨"6598232744", "hi", ""⟩)).Bind
        = Except.ok ⟨"6598232744", "hi", ""⟩
    ∧ (⟨exampleService⟩ : Handler).SendMessage emptyAccountWorld
          (exampleEcho (Except.ok ⟨"6598232744", "hi", ""⟩))
        = (HandlerOutcome.panicked "index out of range [0] with length 0",
            [Effect.built ⟨"GET", lookupURL exampleService, none, [], [], none⟩,
              Effect.issued (lookupRequest exampleService)])
    ∧ ((⟨exampleService⟩ : Handler).SendMessage emptyAccountWorld
          (exampleEcho (Except.ok ⟨"6598232744", "hi", ""⟩))).1.reply? = none :=
  ⟨rfl, rfl, rfl⟩

/-- C10 fails on the code. A lookup answered with status 300, which is not a 2xx status,
and the body `{"data":[]}` is not an error: `ListPhoneNumbers` returns the decoded (empty)
list and a nil error. -/
theorem ListPhoneNumbers_300_not_error :
    lookupCompleted (lookupWorld 300 "\x7b\"data\":[]\x7d") exampleService 300
        (Except.ok "\x7b\"data\":[]\x7d")
    ∧ ¬ (200 ≤ 300 ∧ 300 < 300)
    ∧ (exampleService.ListPhoneNumbers (lookupWorld 300 "\x7b\"data\":[]\x7d")).1
        = ⟨some ⟨[], ⟨⟨"", ""⟩, ""⟩⟩, none⟩ :=
  ⟨⟨lookupRequest exampleService, by decide, rfl⟩, by decide, rfl⟩

/-- C10 as amended. For every response to the lookup with status 400 or above and raw body
`b`, `ListPhoneNumbers` returns a nil result and the error
`"API error (status <code>): <b>"`. A response with a status below 400 (1xx, 2xx and 3xx
alike) is not rejected on its status: its body is decoded, giving the decoded list and no
error, or a nil result and the error `"failed to parse response: <diagnostic>"`. -/
theorem ListPhoneNumbers_status (w : World) (s : Service) (code : Nat) (b : String)
    (hresp : lookupCompleted w s code (Except.ok b)) :
    (code ≥ 400 →
        (s.ListPhoneNumbers w).1
          = ⟨none, some ⟨"API error (status " ++ toString code ++ "): " ++ b⟩⟩)
    ∧ (code < 400 →
        (∀ r, w.UnmarshalPhoneNumbers b = Except.ok r →
          (s.ListPhoneNumbers w).1 = ⟨some r, none⟩)
        ∧ (∀ e, w.UnmarshalPhoneNumbers b = Except.error e →
          (s.ListPhoneNumbers w).1 = ⟨none, some ⟨"failed to parse response: " ++ e.msg⟩⟩)) := by
  rw [lookupCompleted_result w s code b hresp]
  unfold afterLookupResponse apiErrorText
  constructor
  · intro hc
    rw [if_pos hc]
  · intro hc
    rw [if_neg (Nat.not_le.mpr hc)]
    constructor
    · intro r hr
      simp only [hr]
    · intro e he
      simp only [he, Errorf]

/-- C10 as amended, at a 401 answer with body `unauthorized` and at a 300 answer. -/
theorem ListPhoneNumbers_status_witness :
    lookupCompleted (lookupWorld 401 "unauthorized") exampleService 401
        (Except.ok "unauthorized")
    ∧ (exampleService.ListPhoneNumbers (lookupWorld 401 "unauthorized")).1
        = ⟨none, some ⟨"API error (status 401): unauthorized"⟩⟩
    ∧ (exampleService.ListPhoneNumbers (lookupWorld 300 "\x7b\"data\":[]\x7d")).1
        = ⟨some ⟨[], ⟨⟨"", ""⟩, ""⟩⟩, none⟩ :=
  have h401 : lookupCompleted (lookupWorld 401 "unauthorized") exampleService 401
      (Except.ok "unauthorized") := ⟨lookupRequest exampleService, by decide, rfl⟩
  have h300 : lookupCompleted (lookupWorld 300 "\x7b\"data\":[]\x7d") exampleService 300
      (Except.ok "\x7b\"data\":[]\x7d") := ⟨lookupRequest exampleService, by decide, rfl⟩
  ⟨h401, (ListPhoneNumbers_status _ _ 401 "unauthorized" h401).1 (by decide),
    ((ListPhoneNumbers_status _ _ 300 "\x7b\"data\":[]\x7d" h300).2 (by decide)).1
      ⟨[], ⟨⟨"", ""⟩, ""⟩⟩ rfl⟩

/-! ## Lemmas for the lookup inside `SendMessage` -/

theorem ListPhoneNumbers_effects_get (w : World) (s : Service) (req : Request)
    (h : Effect.built req ∈ (s.ListPhoneNumbers w).2
      ∨ Effect.issued req ∈ (s.ListPhoneNumbers w).2) : req.Method = "GET" := by
  have key : ∀ l : List Effect,
      l = [] ∨ l = [Effect.built ⟨"GET", lookupURL s, none, [], [], none⟩,
        Effect.issued (lookupRequest s)] →
      (Effect.built req ∈ l ∨ Effect.issued req ∈ l) → req.Method = "GET" := by
    intro l hl hm
    rcases hl with rfl | rfl
    · simp at hm
    · rcases hm with hm | hm
      · simp at hm
        subst hm
        rfl
      · simp at hm
        subst hm
        rfl
  refine key _ ?_ h
  unfold Service.ListPhoneNumbers
  simp only []
  split
  · left; rfl
  · split
    · right; rfl
    · split
      · right; rfl
      · split
        · right; rfl
        · split <;> (right; rfl)

/-- C11. When the lookup inside `SendMessage` fails with error `e`, `SendMessage` returns a
nil result and the error `"failed to list phone numbers: "` followed by the text of `e`;
its effects are those of the lookup alone, so no POST request is built or issued. -/
theorem SendMessage_lookup_error (w : World) (s : Service) (c : Context)
    (msg : OutgoingMessage) (e : GoError) (hl : (s.ListPhoneNumbers w).1.err = some e) :
    (s.SendMessage w c msg).1
        = Outcome.returned none (some ⟨"failed to list phone numbers: " ++ e.msg⟩)
    ∧ (s.SendMessage w c msg).2 = (s.ListPhoneNumbers w).2
    ∧ ∀ req, (Effect.built req ∈ (s.SendMessage w c msg).2
        ∨ Effect.issued req ∈ (s.SendMessage w c msg).2) → req.Method ≠ "POST" := by
  have h12 : (s.SendMessage w c msg).1
        = Outcome.returned none (some ⟨"failed to list phone numbers: " ++ e.msg⟩)
      ∧ (s.SendMessage w c msg).2 = (s.ListPhoneNumbers w).2 := by
    unfold Service.SendMessage
    rcases hlp : s.ListPhoneNumbers w with ⟨⟨res, err⟩, fx⟩
    rw [hlp] at hl
    simp only at hl
    subst hl
    cases res <;> exact ⟨rfl, rfl⟩
  refine ⟨h12.1, h12.2, ?_⟩
  intro req hreq
  rw [h12.2] at hreq
  rw [ListPhoneNumbers_effects_get w s req hreq]
  decide

/-- C11 at a lookup answered 401 with body `unauthorized`, a remote application error. -/
theorem SendMessage_lookup_error_witness :
    (exampleService.ListPhoneNumbers (lookupWorld 401 "unauthorized")).1.err
        = some ⟨"API error (status 401): unauthorized"⟩
    ∧ (exampleService.SendMessage (lookupWorld 401 "unauthorized") 0
          ⟨"6598765432", "hi", ""⟩).1
        = Outcome.returned none
            (some ⟨"failed to list phone numbers: API error (status 401): unauthorized"⟩)
    ∧ (exampleService.SendMessage (lookupWorld 401 "unauthorized") 0
          ⟨"6598765432", "hi", ""⟩).2
        = [Effect.built ⟨"GET", lookupURL exampleService, none, [], [], none⟩,
            Effect.issued (lookupRequest exampleService)] :=
  have h := SendMessage_lookup_error (lookupWorld 401 "unauthorized") exampleService 0
    ⟨"6598765432", "hi", ""⟩ ⟨"API error (status 401): unauthorized"⟩ (by decide)
  ⟨by decide, h.1, h.2.1.trans rfl⟩

theorem sendWithPhoneID_effects (w : World) (s : Service) (c : Context)
    (msg : OutgoingMessage) (phoneID : String) (req : Request)
    (h : Effect.built req ∈ (s.sendWithPhoneID w c msg phoneID).2
      ∨ Effect.issued req ∈ (s.sendWithPhoneID w c msg phoneID).2) :
    req.Method = "POST" ∧ req.URL = sendURL s phoneID := by
  have key : ∀ (l : List Effect) (jsonData : String),
      l = [] ∨ l = [Effect.built ⟨"POST", sendURL s phoneID, some jsonData, [], [], some c⟩,
        Effect.issued (sendRequest s c (sendURL s phoneID) jsonData)] →
      (Effect.built req ∈ l ∨ Effect.issued req ∈ l) →
      req.Method = "POST" ∧ req.URL = sendURL s phoneID := by
    intro l jsonData hl hm
    rcases hl with rfl | rfl
    · simp at hm
    · rcases hm with hm | hm
      · simp at hm
        subst hm
        exact ⟨rfl, rfl⟩
      · simp at hm
        subst hm
        exact ⟨rfl, rfl⟩
  unfold Service.sendWithPhoneID at h
  simp only [] at h
  split at h
  · simp at h
  · rename_i jsonData _
    refine key _ jsonData ?_ h
    split
    · left; rfl
    · split
      · right; rfl
      · split
        · right; rfl
        · split
          · right; rfl
          · split <;> (right; rfl)

/-- C13. `SendMessage` takes element 0 of the looked-up list without a check. When the
lookup succeeds with a non-empty list, the call continues with the `ID` of the first entry
only, and every POST request it builds or issues has the URL
`https://graph.facebook.com/<APIVersion>/<ID of the first entry>/messages`. When the lookup
succeeds with an empty list, the call panics on the index: it returns neither a result nor
an error, and its effects are those of the lookup, with no POST request built or issued. -/
theorem SendMessage_first_phone (w : World) (s : Service) (c : Context)
    (msg : OutgoingMessage) (phones : PhoneNumbersResponse)
    (hl : (s.ListPhoneNumbers w).1 = ⟨some phones, none⟩) :
    (∀ phone rest, phones.Data = phone :: rest →
        s.SendMessage w c msg
          = ((s.sendWithPhoneID w c msg phone.ID).1,
              (s.ListPhoneNumbers w).2 ++ (s.sendWithPhoneID w c msg phone.ID).2)
        ∧ ∀ req, (Effect.built req ∈ (s.SendMessage w c msg).2
            ∨ Effect.issued req ∈ (s.SendMessage w c msg).2) → req.Method = "POST" →
          req.URL = "https://graph.facebook.com/" ++ s.APIVersion ++ "/" ++ phone.ID
            ++ "/messages")
    ∧ (phones.Data = [] →
        s.SendMessage w c msg
          = (Outcome.panicked "index out of range [0] with length 0", (s.ListPhoneNumbers w).2)
        ∧ ∀ req, (Effect.built req ∈ (s.SendMessage w c msg).2
            ∨ Effect.issued req ∈ (s.SendMessage w c msg).2) → req.Method ≠ "POST") := by
  have hget : ∀ req, (Effect.built req ∈ (s.ListPhoneNumbers w).2
      ∨ Effect.issued req ∈ (s.ListPhoneNumbers w).2) → req.Method ≠ "POST" := by
    intro req hreq
    rw [ListPhoneNumbers_effects_get w s req hreq]
    decide
  constructor
  · intro phone rest hd
    have heq : s.SendMessage w c msg
        = ((s.sendWithPhoneID w c msg phone.ID).1,
            (s.ListPhoneNumbers w).2 ++ (s.sendWithPhoneID w c msg phone.ID).2) := by
      unfold Service.SendMessage
      rcases hlp : s.ListPhoneNumbers w with ⟨r, fx⟩
      rw [hlp] at hl
      simp only at hl
      subst hl
      simp only [hd]
    refine ⟨heq, ?_⟩
    intro req hreq hpost
    rw [heq] at hreq
    simp only [List.mem_append] at hreq
    have hsend : Effect.built req ∈ (s.sendWithPhoneID w c msg phone.ID).2
        ∨ Effect.issued req ∈ (s.sendWithPhoneID w c msg phone.ID).2 := by
      rcases hreq with (h1 | h2) | (h1 | h2)
      · exact absurd hpost (hget req (Or.inl h1))
      · exact Or.inl h2
      · exact absurd hpost (hget req (Or.inr h1))
      · exact Or.inr h2
    exact (sendWithPhoneID_effects w s c msg phone.ID req hsend).2
  · intro hd
    have heq : s.SendMessage w c msg
        = (Outcome.panicked "index out of range [0] with length 0",
            (s.ListPhoneNumbers w).2) := by
      unfold Service.SendMessage
      rcases hlp : s.ListPhoneNumbers w with ⟨r, fx⟩
      rw [hlp] at hl
      simp only at hl
      subst hl
      simp only [hd]
    refine ⟨heq, ?_⟩
    intro req hreq
    rw [heq] at hreq
    exact hget req hreq

/-- C13 at a lookup that returns two phone numbers (the POST request goes to the first
one's URL) and at a lookup that returns none (the call panics after the lookup). -/
theorem SendMessage_first_phone_witness :
    ((exampleService.ListPhoneNumbers twoPhonesWorld).1
        = ⟨some ⟨[examplePhone, secondPhone], ⟨⟨"", ""⟩, ""⟩⟩, none⟩
      ∧ Effect.issued (sendRequest exampleService 0
            "https://graph.facebook.com/v19.0/106540352242922/messages" "envelope")
          ∈ (exampleService.SendMessage twoPhonesWorld 0 ⟨"6598765432", "hi", ""⟩).2
      ∧ (sendRequest exampleService 0
            "https://graph.facebook.com/v19.0/106540352242922/messages" "envelope").URL
          = "https://graph.facebook.com/" ++ exampleService.APIVersion ++ "/"
            ++ examplePhone.ID ++ "/messages")
    ∧ ((exampleService.ListPhoneNumbers (lookupWorld 200 "\x7b\"data\":[]\x7d")).1
        = ⟨some ⟨[], ⟨⟨"", ""⟩, ""⟩⟩, none⟩
      ∧ exampleService.SendMessage (lookupWorld 200 "\x7b\"data\":[]\x7d") 7
          ⟨"+6598232744", "hello", ""⟩
        = (Outcome.panicked "index out of range [0] with length 0",
            (exampleService.ListPhoneNumbers (lookupWorld 200 "\x7b\"data\":[]\x7d")).2)) :=
  ⟨⟨rfl, by decide,
      ((SendMessage_first_phone twoPhonesWorld exampleService 0 ⟨"6598765432", "hi", ""⟩
        ⟨[examplePhone, secondPhone], ⟨⟨"", ""⟩, ""⟩⟩ rfl).1 examplePhone [secondPhone] rfl).2
        _ (Or.inr (by decide)) rfl⟩,
    ⟨rfl,
      ((SendMessage_first_phone (lookupWorld 200 "\x7b\"data\":[]\x7d") exampleService 7
        ⟨"+6598232744", "hello", ""⟩ ⟨[], ⟨⟨"", ""⟩, ""⟩⟩ rfl).2 rfl).1⟩⟩

/-- C12 fails on the code. On the truncated body of `TestSendMessageHandler`, where the test
asserts status 200, the handler returns no handler error and answers 400: with
`Invalid request format` when binding fails, and with the required-fields message even if
the binder kept `to`; the world is one in which a send would succeed. -/
theorem Handler_SendMessage_truncated_400 :
    (⟨exampleService⟩ : Handler).SendMessage (exampleWorld 200 "sent" []) truncatedRequest
        = (HandlerOutcome.replied
            ⟨400, ReplyBody.json (some ⟨false, "Invalid request format", ""⟩)⟩ none, [])
    ∧ (⟨exampleService⟩ : Handler).SendMessage (exampleWorld 200 "sent" [])
          truncatedRequestLenient
        = (HandlerOutcome.replied
            ⟨400, ReplyBody.json
              (some ⟨false, "Both 'to' and 'message' fields are required", ""⟩)⟩ none, []) :=
  ⟨rfl, rfl⟩

/-- Status 200 needs a message text. For a request whose body gives no message text, because
binding fails or because the bound `message` is empty (all a truncated object with only
`to` can give), and whose response write succeeds, the handler returns no handler error and
responds with status 400, with the message `Invalid request format` when binding fails; no
request to the remote API is built or sent. -/
theorem Handler_SendMessage_no_message (w : World) (h : Handler) (c : EchoContext)
    (hb : ∀ msg, c.Bind = Except.ok msg → msg.Message = "")
    (hw : ∀ r, c.Write r = none) :
    (h.SendMessage w c).2 = []
    ∧ (∃ text, (h.SendMessage w c).1
        = HandlerOutcome.replied ⟨400, ReplyBody.json (some ⟨false, text, ""⟩)⟩ none)
    ∧ (∀ e, c.Bind = Except.error e →
        (h.SendMessage w c).1
          = HandlerOutcome.replied
              ⟨400, ReplyBody.json (some ⟨false, "Invalid request format", ""⟩)⟩ none) := by
  unfold Handler.SendMessage
  cases hbind : c.Bind with
  | error e =>
    refine ⟨rfl, ⟨"Invalid request format", ?_⟩, fun _ _ => ?_⟩ <;>
      simp only [EchoContext.JSON, StatusBadRequest, hw]
  | ok msg =>
    have hm : (msg.To == "" || msg.Message == "") = true := by
      simp [hb msg hbind]
    refine ⟨?_, ⟨"Both 'to' and 'message' fields are required", ?_⟩, fun e he => by cases he⟩ <;>
      simp only [hm, if_true, EchoContext.JSON, StatusBadRequest, hw]

/-- The request of `TestSendMessageHandler` gives no message text: the answer is 400. -/
theorem Handler_SendMessage_no_message_witness :
    ((⟨exampleService⟩ : Handler).SendMessage (exampleWorld 200 "sent" []) truncatedRequest).1
      = HandlerOutcome.replied
          ⟨400, ReplyBody.json (some ⟨false, "Invalid request format", ""⟩)⟩ none :=
  (Handler_SendMessage_no_message (exampleWorld 200 "sent" []) ⟨exampleService⟩
    truncatedRequest (fun _ hok => by cases hok) (fun _ => rfl)).2.2
    ⟨"code=400, message=unexpected EOF, internal=unexpected EOF"⟩ rfl

/-! ## Lemmas on `BuildURL` -/

theorem data_slash_append (p : String) : ("/" ++ p).data = '/' :: p.data := by
  rw [String.data_append]
  rfl

theorem data_append_slash (b : String) : (b ++ "/").data = b.data ++ ['/'] :=
  String.data_append b "/"

theorem HasPrefix_slash_append (p : String) : HasPrefix ("/" ++ p) "/" = true := by
  have hp : ("/" : String).data = ['/'] := rfl
  unfold HasPrefix
  rw [data_slash_append, hp]
  simp

theorem HasSuffix_append_slash (b : String) : HasSuffix (b ++ "/") "/" = true := by
  have hp : ("/" : String).data = ['/'] := rfl
  unfold HasSuffix
  rw [data_append_slash, hp]
  simp

theorem dropLast_append_slash (b : String) :
    (⟨(b ++ "/").data.take ((b ++ "/").data.length - 1)⟩ : String) = b := by
  apply String.ext
  rw [data_append_slash]
  simp

theorem append_slash_ne_empty (b : String) : (b ++ "/" == "") = false := by
  have hne : b ++ "/" ≠ "" := by
    intro h
    have hd := congrArg String.data h
    rw [data_append_slash] at hd
    simp at hd
  simpa using hne

/-- C14. `BuildURL` returns `""` for an empty base URL and any path; for a non-empty base `b`
that does not end in `/` and a path `p` that does not start with `/`, the four calls
`BuildURL(b, p)`, `BuildURL(b ++ "/", p)`, `BuildURL(b, "/" ++ p)` and
`BuildURL(b ++ "/", "/" ++ p)` all give `b ++ "/" ++ p`. -/
theorem BuildURL_slashes (b p : String) (hb : b ≠ "") (hsuf : HasSuffix b "/" = false)
    (hpre : HasPrefix p "/" = false) :
    (∀ path, ngrok.BuildURL "" path = "")
    ∧ ngrok.BuildURL b p = b ++ "/" ++ p
    ∧ ngrok.BuildURL (b ++ "/") p = b ++ "/" ++ p
    ∧ ngrok.BuildURL b ("/" ++ p) = b ++ "/" ++ p
    ∧ ngrok.BuildURL (b ++ "/") ("/" ++ p) = b ++ "/" ++ p := by
  have hbe : (b == "") = false := by simpa using hb
  refine ⟨fun path => rfl, ?_, ?_, ?_, ?_⟩
  · unfold ngrok.BuildURL
    simp only [hbe, hsuf, hpre]
    simp [String.append_assoc]
  · unfold ngrok.BuildURL
    simp only [append_slash_ne_empty, HasSuffix_append_slash, hpre, dropLast_append_slash]
    simp [String.append_assoc]
  · unfold ngrok.BuildURL
    simp only [hbe, hsuf, HasPrefix_slash_append]
    simp [String.append_assoc]
  · unfold ngrok.BuildURL
    simp only [append_slash_ne_empty, HasSuffix_append_slash, HasPrefix_slash_append,
      dropLast_append_slash]
    simp [String.append_assoc]

/-- C14 at the base `https://example.ngrok.app` and the path `whatsapp/webhook`. -/
theorem BuildURL_slashes_witness :
    ngrok.BuildURL "https://example.ngrok.app/" "/whatsapp/webhook"
        = "https://example.ngrok.app/whatsapp/webhook"
    ∧ ngrok.BuildURL "https://example.ngrok.app" "whatsapp/webhook"
        = "https://example.ngrok.app/whatsapp/webhook" :=
  have h := BuildURL_slashes "https://example.ngrok.app" "whatsapp/webhook"
    (by decide) (by decide) (by decide)
  ⟨h.2.2.2.2.trans (by decide), h.2.1.trans (by decide)⟩

end WaOdoo
